import Mathlib

/-!
Verification of the Dataset/Page abstraction layer and the Result
Materialization layer of the MinerU repository slice
(`magic_pdf/data/dataset.py` and `magic_pdf/pipe/operators.py`),
as a shallow embedding in Lean 4.

Python values that matter to the contracts are embedded explicitly:
byte strings become `Bytes` (lists of naturals), JSON-like Python
objects become the inductive `Json`, fallible operations return
`Except PyErr`, and external collaborators (the fitz rendering engine,
the `classify` heuristic, the `union_make` content assembler, the
drawing routines) are passed in as function parameters, since the
source only fixes the contracts at their boundaries.
-/

/-- Byte strings (Python `bytes`), embedded as lists of byte values. -/
abbrev Bytes := List Nat

/-- The `SupportedPdfParseMethod` enum from `magic_pdf.config.enums`
(external module; the spec names the members OCR and TEXT_EXTRACTION,
the code names them OCR and TXT). -/
inductive SupportedPdfParseMethod where
  | OCR
  | TXT
deriving DecidableEq, Repr

/-- Modelled from the spec: the `MakeMode` render-mode enum of
`magic_pdf.config.make_content_config` (external module); the source
uses members `MM_MD` (multimedia markdown, the `dump_md` default) and
`STANDARD_FORMAT` (the structured content-list mode). -/
inductive MakeMode where
  | MM_MD
  | STANDARD_FORMAT
deriving DecidableEq, Repr

/-- Modelled from the spec: the `DropMode` drop-policy enum of
`magic_pdf.config.make_content_config` (external module); the source
uses members `WHOLE_PDF` (the `dump_md` default) and `NONE`. -/
inductive DropMode where
  | WHOLE_PDF
  | NONE
deriving DecidableEq, Repr

/-- The Python exceptions the embedded operations can raise. -/
inductive PyErr where
  | indexError
  | keyError (k : String)
  | attributeError (name : String)
  | typeError
  | fileNotFoundError
deriving DecidableEq, Repr

/-- JSON-like Python values: the analysis result structures passed
through the materializer, and attribute values of fitz pages. -/
inductive Json where
  | null
  | str (s : String)
  | int (n : Int)
  | arr (xs : List Json)
  | obj (kvs : List (String × Json))

/-- An underlying fitz page object, reduced to what the embedded code
observes: its dynamic attribute table (used by `Doc.__getattr__`). -/
structure FitzPage where
  attrs : List (String × Json)

/-- `Doc` from `dataset.py`: a PageHandle wrapping one fitz page. -/
structure Doc where
  _doc : FitzPage

/-- `PymuDocDataset` state after `__init__`: the eagerly built page
handles, the pdf bytes, and the raw input bytes. -/
structure PymuDocDataset where
  _records : List Doc
  _data_bits : Bytes
  _raw_data : Bytes

/-- `ImageDataset` state after `__init__`: page handles built from the
converted pdf bytes, the original image bytes, and the converted bytes. -/
structure ImageDataset where
  _records : List Doc
  _raw_data : Bytes
  _data_bits : Bytes

/-- `PymuDocDataset.__init__`: decode `bits` as a paged document via the
external engine (`fitz.open('pdf', bits)`, embedded as the parameter
`fitz_pages` giving the page list), wrap each page in a `Doc`, and keep
`bits` as both `_data_bits` and `_raw_data`. -/
def PymuDocDataset.init (fitz_pages : Bytes → List FitzPage) (bits : Bytes) :
    PymuDocDataset :=
  { _records := (fitz_pages bits).map (fun v => Doc.mk v)
    _data_bits := bits
    _raw_data := bits }

/-- `ImageDataset.__init__`: convert the image bytes to pdf bytes first
(`fitz.open(stream=bits).convert_to_pdf()`, embedded as the parameter
`convert_to_pdf`), decode those, and keep the original bytes as
`_raw_data` and the converted bytes as `_data_bits`. -/
def ImageDataset.init (convert_to_pdf : Bytes → Bytes)
    (fitz_pages : Bytes → List FitzPage) (bits : Bytes) : ImageDataset :=
  let pdf_bytes := convert_to_pdf bits
  { _records := (fitz_pages pdf_bytes).map (fun v => Doc.mk v)
    _raw_data := bits
    _data_bits := pdf_bytes }

/-- `PymuDocDataset.__len__`. -/
def PymuDocDataset.length (d : PymuDocDataset) : Nat := d._records.length

/-- `ImageDataset.__len__`. -/
def ImageDataset.length (d : ImageDataset) : Nat := d._records.length

/-- `PymuDocDataset.supported_methods`. -/
def PymuDocDataset.supported_methods (_d : PymuDocDataset) :
    List SupportedPdfParseMethod :=
  [SupportedPdfParseMethod.OCR, SupportedPdfParseMethod.TXT]

/-- `ImageDataset.supported_methods`. -/
def ImageDataset.supported_methods (_d : ImageDataset) :
    List SupportedPdfParseMethod :=
  [SupportedPdfParseMethod.OCR]

/-- `PymuDocDataset.data_bits`. -/
def PymuDocDataset.data_bits (d : PymuDocDataset) : Bytes := d._data_bits

/-- `ImageDataset.data_bits`. -/
def ImageDataset.data_bits (d : ImageDataset) : Bytes := d._data_bits

/-- Index normalization of Python sequence subscription: a negative
index is first shifted by the sequence length. -/
def pyIndex (n : Nat) (i : Int) : Int := if i < 0 then i + n else i

/-- Python list subscription `xs[i]` with an `int` index: the
normalized index must lie in `[0, len(xs))`, else `IndexError`. -/
def pyListGet {α : Type} (xs : List α) (i : Int) : Except PyErr α :=
  if h : 0 ≤ pyIndex xs.length i ∧ pyIndex xs.length i < (xs.length : Int) then
    Except.ok (xs.get ⟨(pyIndex xs.length i).toNat, by omega⟩)
  else
    Except.error PyErr.indexError

/-- `PymuDocDataset.get_page`: `return self._records[page_id]`. -/
def PymuDocDataset.get_page (d : PymuDocDataset) (page_id : Int) :
    Except PyErr Doc :=
  pyListGet d._records page_id

/-- `ImageDataset.get_page`: `return self._records[page_id]`. -/
def ImageDataset.get_page (d : ImageDataset) (page_id : Int) :
    Except PyErr Doc :=
  pyListGet d._records page_id

/-- `PymuDocDataset.classify`: delegates to the external classification
heuristic (`magic_pdf.filter.classify`) on `self._data_bits`. -/
def PymuDocDataset.classify (cls : Bytes → SupportedPdfParseMethod)
    (d : PymuDocDataset) : SupportedPdfParseMethod :=
  cls d._data_bits

/-- `ImageDataset.classify`: returns OCR unconditionally; the external
heuristic is not consulted (the definition takes no classifier). -/
def ImageDataset.classify (_d : ImageDataset) : SupportedPdfParseMethod :=
  SupportedPdfParseMethod.OCR

/-- A dataset of either concrete variant, for statements quantifying
over "every dataset (direct or converted)". -/
inductive DatasetV where
  | pymu (d : PymuDocDataset)
  | img (d : ImageDataset)

/-- The page-handle sequence of either variant. -/
def DatasetV.records : DatasetV → List Doc
  | DatasetV.pymu d => d._records
  | DatasetV.img d => d._records

/-- `get_page` dispatched over the two variants. -/
def DatasetV.get_page : DatasetV → Int → Except PyErr Doc
  | DatasetV.pymu d, i => d.get_page i
  | DatasetV.img d, i => d.get_page i

/-- `data_bits` dispatched over the two variants. -/
def DatasetV.data_bits : DatasetV → Bytes
  | DatasetV.pymu d => d.data_bits
  | DatasetV.img d => d.data_bits

/-- A Python value as it can appear in a positional argument list of an
`apply` call: the dataset itself, or an opaque payload value. -/
inductive PyObj where
  | ds (d : DatasetV)
  | v (j : Json)

/-- `PymuDocDataset.apply`: builds `new_args = tuple([self] + list(args))`
and calls `proc(*new_args, **kwargs)`; the procedure is embedded as a
function of the full positional tuple and the keyword mapping. -/
def PymuDocDataset.apply {Res : Type} (d : PymuDocDataset)
    (proc : List PyObj → List (String × Json) → Res)
    (args : List PyObj) (kwargs : List (String × Json)) : Res :=
  let new_args := [PyObj.ds (DatasetV.pymu d)] ++ args
  proc new_args kwargs

/-- `ImageDataset.apply`: calls `proc(self, *args, **kwargs)` directly. -/
def ImageDataset.apply {Res : Type} (d : ImageDataset)
    (proc : List PyObj → List (String × Json) → Res)
    (args : List PyObj) (kwargs : List (String × Json)) : Res :=
  proc (PyObj.ds (DatasetV.img d) :: args) kwargs

/-- `apply` dispatched over the two variants. -/
def DatasetV.apply {Res : Type} (dv : DatasetV)
    (proc : List PyObj → List (String × Json) → Res)
    (args : List PyObj) (kwargs : List (String × Json)) : Res :=
  match dv with
  | DatasetV.pymu d => d.apply proc args kwargs
  | DatasetV.img d => d.apply proc args kwargs

/-- Lowercase hexadecimal digit. -/
def hexDigit (n : Nat) : Char :=
  if n < 10 then Char.ofNat (48 + n) else Char.ofNat (87 + n)

/-- Four-digit lowercase hexadecimal rendering, as used in `\uXXXX`. -/
def hex4 (n : Nat) : String :=
  String.mk [hexDigit (n / 4096 % 16), hexDigit (n / 256 % 16),
    hexDigit (n / 16 % 16), hexDigit (n % 16)]

/-- A run of spaces (the indentation emitted by `json.dumps`). -/
def spaces (n : Nat) : String :=
  String.mk (List.replicate n (Char.ofNat 32))

/-- Escape of one character inside a JSON string literal, following
CPython's `json` module: the quote, the backslash and control
characters are always escaped (the usual short escapes, else `\u00xx`);
with `ensure_ascii` every character above printable ASCII is
`\u`-escaped as well (a surrogate pair beyond the BMP); without it,
every such character is emitted verbatim. -/
def jsonEscChar (ensure_ascii : Bool) (c : Char) : String :=
  if c.toNat = 34 then "\\\""
  else if c.toNat = 92 then "\\\\"
  else if c.toNat = 10 then "\\n"
  else if c.toNat = 13 then "\\r"
  else if c.toNat = 9 then "\\t"
  else if c.toNat = 8 then "\\b"
  else if c.toNat = 12 then "\\f"
  else if c.toNat < 32 then "\\u" ++ hex4 c.toNat
  else if ensure_ascii && 126 < c.toNat then
    if c.toNat < 65536 then "\\u" ++ hex4 c.toNat
    else
      "\\u" ++ hex4 (55296 + (c.toNat - 65536) / 1024) ++
        "\\u" ++ hex4 (56320 + (c.toNat - 65536) % 1024)
  else String.singleton c

/-- JSON string literal rendering (`json.dumps` applied to a `str`). -/
def jsonQuote (ensure_ascii : Bool) (s : String) : String :=
  "\"" ++ String.join (s.toList.map (jsonEscChar ensure_ascii)) ++ "\""

mutual

/-- The recursive worker of `json.dumps(v, ensure_ascii=ea, indent=ind)`
at nesting level `lvl`: containers open on their own line, members are
indented one further level and separated by a comma and newline, and the
closing bracket returns to the container's level. -/
def jsonRender (ea : Bool) (ind lvl : Nat) : Json → String
  | Json.null => "null"
  | Json.str s => jsonQuote ea s
  | Json.int n => toString n
  | Json.arr xs =>
    match xs with
    | [] => "[]"
    | _ => "[\n" ++ jsonRenderItems ea ind (lvl + 1) xs ++ "\n" ++
        spaces (ind * lvl) ++ "]"
  | Json.obj kvs =>
    match kvs with
    | [] => "\x7b\x7d"
    | _ => "\x7b\n" ++ jsonRenderFields ea ind (lvl + 1) kvs ++ "\n" ++
        spaces (ind * lvl) ++ "\x7d"

/-- Array members, each indented to `ind * lvl`. -/
def jsonRenderItems (ea : Bool) (ind lvl : Nat) : List Json → String
  | [] => ""
  | [x] => spaces (ind * lvl) ++ jsonRender ea ind lvl x
  | x :: y :: xs =>
    spaces (ind * lvl) ++ jsonRender ea ind lvl x ++ ",\n" ++
      jsonRenderItems ea ind lvl (y :: xs)

/-- Object members, `"key": value`, each indented to `ind * lvl`. -/
def jsonRenderFields (ea : Bool) (ind lvl : Nat) :
    List (String × Json) → String
  | [] => ""
  | [(k, v)] => spaces (ind * lvl) ++ jsonQuote ea k ++ ": " ++
      jsonRender ea ind lvl v
  | (k, v) :: kv :: kvs =>
    spaces (ind * lvl) ++ jsonQuote ea k ++ ": " ++ jsonRender ea ind lvl v ++
      ",\n" ++ jsonRenderFields ea ind lvl (kv :: kvs)

end

/-- `json.dumps(v, ensure_ascii=..., indent=...)` for the embedded value
subset, as invoked by the pipe operators. -/
def json_dumps (v : Json) (ensure_ascii : Bool) (indent : Nat) : String :=
  jsonRender ensure_ascii indent 0 v

/-- Python `d[k]` on a dict value: `KeyError` when the key is absent,
`TypeError` when the subscripted value is not a dict. -/
def pyDictGet (j : Json) (k : String) : Except PyErr Json :=
  match j with
  | Json.obj kvs =>
    match kvs.lookup k with
    | some v => Except.ok v
    | none => Except.error (PyErr.keyError k)
  | _ => Except.error PyErr.typeError

/-- The writer capability (`DataWriter`): an abstract storage backend,
embedded as the ordered record of its `write_string` calls. -/
structure DataWriter where
  writes : List (String × Json)

/-- `DataWriter.write_string(path, content)`: appends one write. -/
def DataWriter.write_string (w : DataWriter) (path : String)
    (content : Json) : DataWriter :=
  { writes := w.writes ++ [(path, content)] }

/-- `PipeResult` state after `__init__`: the pipeline result and the
dataset it was computed against. -/
structure PipeResult where
  _pipe_res : Json
  _dataset : DatasetV

/-- An attribute value produced by lookup on a `PipeResult`. -/
inductive PRAttr where
  | res (j : Json)
  | ds (d : DatasetV)
  | method (name : String)

/-- The method names class `PipeResult` defines. -/
def PipeResult.method_names : List String :=
  ["dump_md", "dump_content_list", "dump_middle_json", "draw_layout",
    "draw_span", "draw_line_sort", "get_compress_pdf_mid_data"]

/-- Python attribute lookup on a `PipeResult` instance: `__init__` sets
exactly `_pipe_res` and `_dataset`, the class supplies its methods, and
the class defines no `__getattr__`, so any other name raises
`AttributeError`. -/
def PipeResult.py_getattr (p : PipeResult) (name : String) :
    Except PyErr PRAttr :=
  if name = "_pipe_res" then Except.ok (PRAttr.res p._pipe_res)
  else if name = "_dataset" then Except.ok (PRAttr.ds p._dataset)
  else if PipeResult.method_names.contains name then
    Except.ok (PRAttr.method name)
  else Except.error (PyErr.attributeError name)

/-- `PipeResult.get_compress_pdf_mid_data`: the body evaluates
`JsonCompressor.compress_json(self.pdf_mid_data)`, so the attribute
lookup `self.pdf_mid_data` happens before the external compressor
(parameter `compress_json`) can be applied. -/
def PipeResult.get_compress_pdf_mid_data (compress_json : Json → String)
    (p : PipeResult) : Except PyErr String :=
  match p.py_getattr "pdf_mid_data" with
  | Except.ok (PRAttr.res j) => Except.ok (compress_json j)
  | Except.ok _ => Except.error PyErr.typeError
  | Except.error e => Except.error e

/-- `PipeResult.dump_md`: looks up `pdf_info` in the pipeline result
(KeyError when absent — the spec's `MalformedResultError`), assembles
markdown through the external collaborator `union_make`, and writes the
assembled content. The Python defaults are `drop_mode=DropMode.WHOLE_PDF`
and `md_make_mode=MakeMode.MM_MD`; they are passed positionally here. -/
def PipeResult.dump_md (union_make : Json → MakeMode → DropMode → String → Json)
    (p : PipeResult) (writer : DataWriter) (file_path : String)
    (img_dir : String) (drop_mode : DropMode) (md_make_mode : MakeMode) :
    Except PyErr DataWriter :=
  match pyDictGet p._pipe_res "pdf_info" with
  | Except.error e => Except.error e
  | Except.ok pdf_info_list =>
    Except.ok (writer.write_string file_path
      (union_make pdf_info_list md_make_mode drop_mode img_dir))

/-- `PipeResult.dump_content_list`: looks up `pdf_info`, assembles the
content list with the fixed arguments `MakeMode.STANDARD_FORMAT` and
`DropMode.NONE`, and writes it serialized by
`json.dumps(..., ensure_ascii=False, indent=4)`. -/
def PipeResult.dump_content_list
    (union_make : Json → MakeMode → DropMode → String → Json)
    (p : PipeResult) (writer : DataWriter) (file_path : String)
    (img_dir : String) : Except PyErr DataWriter :=
  match pyDictGet p._pipe_res "pdf_info" with
  | Except.error e => Except.error e
  | Except.ok pdf_info_list =>
    Except.ok (writer.write_string file_path
      (Json.str (json_dumps
        (union_make pdf_info_list MakeMode.STANDARD_FORMAT DropMode.NONE img_dir)
        false 4)))

/-- `PipeResult.dump_middle_json`: writes the whole pipeline result
serialized by `json.dumps(..., ensure_ascii=False, indent=4)`; it never
looks up `pdf_info`. -/
def PipeResult.dump_middle_json (p : PipeResult) (writer : DataWriter)
    (file_path : String) : Except PyErr DataWriter :=
  Except.ok (writer.write_string file_path
    (Json.str (json_dumps p._pipe_res false 4)))

/-- Last index of a slash in a character list, if any (what
`os.path.dirname`/`basename` compute via `rpartition`). -/
def rfindSlash : List Char → Option Nat
  | [] => none
  | c :: cs =>
    match rfindSlash cs with
    | some j => some (j + 1)
    | none => if c = Char.ofNat 47 then some 0 else none

/-- Strips trailing slashes from a character list. -/
def dropTrailingSlashes (cs : List Char) : List Char :=
  (cs.reverse.dropWhile (fun c => c == Char.ofNat 47)).reverse

/-- Posix `os.path.dirname`: everything up to and including the last
slash, trailing slashes then stripped unless the head is all slashes;
the empty string when the path contains no slash. -/
def os_dirname (p : String) : String :=
  let cs := p.toList
  match rfindSlash cs with
  | none => ""
  | some i =>
    let head := cs.take (i + 1)
    if head.all (fun c => c == Char.ofNat 47) then String.mk head
    else String.mk (dropTrailingSlashes head)

/-- Posix `os.path.basename`: everything after the last slash. -/
def os_basename (p : String) : String :=
  let cs := p.toList
  match rfindSlash cs with
  | none => p
  | some i => String.mk (cs.drop (i + 1))

/-- The filesystem state visible to the overlay renderers: the set of
existing directory paths. -/
abbrev FS := List String

/-- `os.path.exists`: CPython returns False for the empty string
without consulting the filesystem. -/
def os_path_exists (fs : FS) (p : String) : Bool :=
  !(p == "") && fs.contains p

/-- `os.makedirs(p, exist_ok=True)`: raises `FileNotFoundError` on the
empty path, otherwise ensures the directory exists. -/
def os_makedirs (fs : FS) (p : String) : Except PyErr FS :=
  if p = "" then Except.error PyErr.fileNotFoundError
  else Except.ok (p :: fs)

/-- One invocation of an external overlay-drawing collaborator
(`draw_layout_bbox`, `draw_span_bbox` or `draw_line_sort_bbox`), with
the arguments the pipe operators pass: the per-page records, the
dataset's canonical bytes, and the destination directory and name. -/
inductive RenderCall where
  | layout (pdf_info : Json) (bits : Bytes) (dir_name base_name : String)
  | span (pdf_info : Json) (bits : Bytes) (dir_name base_name : String)
  | line_sort (pdf_info : Json) (bits : Bytes) (dir_name base_name : String)

/-- `PipeResult.draw_layout`: splits the path, ensures the directory
exists (`os.makedirs` when `os.path.exists` is false), looks up
`pdf_info`, then delegates to `draw_layout_bbox`. -/
def PipeResult.draw_layout (p : PipeResult) (fs : FS) (file_path : String) :
    Except PyErr (FS × RenderCall) :=
  let dir_name := os_dirname file_path
  let base_name := os_basename file_path
  match (if os_path_exists fs dir_name then Except.ok fs
         else os_makedirs fs dir_name : Except PyErr FS) with
  | Except.error e => Except.error e
  | Except.ok fs2 =>
    match pyDictGet p._pipe_res "pdf_info" with
    | Except.error e => Except.error e
    | Except.ok pdf_info =>
      Except.ok (fs2, RenderCall.layout pdf_info p._dataset.data_bits
        dir_name base_name)

/-- `PipeResult.draw_span`: same shape as `draw_layout`, delegating to
`draw_span_bbox`. -/
def PipeResult.draw_span (p : PipeResult) (fs : FS) (file_path : String) :
    Except PyErr (FS × RenderCall) :=
  let dir_name := os_dirname file_path
  let base_name := os_basename file_path
  match (if os_path_exists fs dir_name then Except.ok fs
         else os_makedirs fs dir_name : Except PyErr FS) with
  | Except.error e => Except.error e
  | Except.ok fs2 =>
    match pyDictGet p._pipe_res "pdf_info" with
    | Except.error e => Except.error e
    | Except.ok pdf_info =>
      Except.ok (fs2, RenderCall.span pdf_info p._dataset.data_bits
        dir_name base_name)

/-- `PipeResult.draw_line_sort`: same shape as `draw_layout`, delegating
to `draw_line_sort_bbox`. -/
def PipeResult.draw_line_sort (p : PipeResult) (fs : FS) (file_path : String) :
    Except PyErr (FS × RenderCall) :=
  let dir_name := os_dirname file_path
  let base_name := os_basename file_path
  match (if os_path_exists fs dir_name then Except.ok fs
         else os_makedirs fs dir_name : Except PyErr FS) with
  | Except.error e => Except.error e
  | Except.ok fs2 =>
    match pyDictGet p._pipe_res "pdf_info" with
    | Except.error e => Except.error e
    | Except.ok pdf_info =>
      Except.ok (fs2, RenderCall.line_sort pdf_info p._dataset.data_bits
        dir_name base_name)

/-- An attribute value produced by lookup on a `Doc` page handle. -/
inductive DocAttr where
  | method (name : String)
  | val (v : Json)

/-- The attribute names class `Doc` itself defines: the slot set in
`__init__` and its methods. For these, `__getattr__` is never called. -/
def Doc.own_attr_names : List String :=
  ["_doc", "get_image", "get_doc", "get_page_info", "draw_rect",
    "insert_text"]

/-- Python attribute lookup on a `Doc`: a name defined on the class (or
set in `__init__`) resolves normally; for any other name Python calls
`Doc.__getattr__`, whose body returns `getattr(self._doc, name)` when
`hasattr(self._doc, name)` and otherwise falls off its end, yielding
`None` — it never raises `AttributeError`. -/
def Doc.py_getattr (d : Doc) (name : String) : Except PyErr DocAttr :=
  if Doc.own_attr_names.contains name then Except.ok (DocAttr.method name)
  else
    match d._doc.attrs.lookup name with
    | some v => Except.ok (DocAttr.val v)
    | none => Except.ok (DocAttr.val Json.null)

/-- A concrete fitz page carrying a `rotation` attribute. -/
def page0 : FitzPage := FitzPage.mk [("rotation", Json.int 0)]

/-- A concrete fitz page with an empty attribute table. -/
def page1 : FitzPage := FitzPage.mk []

/-- A concrete page handle over `page0`. -/
def doc0 : Doc := Doc.mk page0

/-- A concrete page handle over `page1`. -/
def doc1 : Doc := Doc.mk page1

/-- A concrete two-page direct dataset. -/
def ds2 : PymuDocDataset := PymuDocDataset.mk [doc0, doc1] [37] [37]

/-- `ds2` under the variant sum. -/
def ds2v : DatasetV := DatasetV.pymu ds2

/-- A concrete materializer whose result lacks `pdf_info`. -/
def pipe0 : PipeResult := PipeResult.mk (Json.obj []) ds2v

/-- A concrete materializer whose result carries an empty `pdf_info`. -/
def pipe1 : PipeResult := PipeResult.mk (Json.obj [("pdf_info", Json.arr [])]) ds2v

/-- A concrete writer with no recorded writes. -/
def w0 : DataWriter := DataWriter.mk []

/-- `pyIndex` on a nonnegative index is the identity. -/
theorem pyIndex_nonneg (n : Nat) (i : Int) (h : 0 ≤ i) : pyIndex n i = i := by
  unfold pyIndex
  rw [if_neg (by omega)]

/-- `pyIndex` on a negative index shifts by the length. -/
theorem pyIndex_neg (n : Nat) (i : Int) (h : i < 0) : pyIndex n i = i + n := by
  unfold pyIndex
  rw [if_pos h]

/-- Behaviour of Python list subscription, split by where the integer
index falls: in `[0, n)` it selects position `i`; in `[-n, 0)` it
selects position `i + n`; outside `[-n, n)` it raises `IndexError`. -/
theorem pyListGet_spec {α : Type} (xs : List α) (i : Int) :
    ((0 ≤ i ∧ i < (xs.length : Int)) →
      ∃ x, xs.get? i.toNat = some x ∧ pyListGet xs i = Except.ok x) ∧
    ((-(xs.length : Int) ≤ i ∧ i < 0) →
      ∃ x, xs.get? (i + (xs.length : Int)).toNat = some x ∧
        pyListGet xs i = Except.ok x) ∧
    ((i < -(xs.length : Int) ∨ (xs.length : Int) ≤ i) →
      pyListGet xs i = Except.error PyErr.indexError) := by
  refine ⟨?_, ?_, ?_⟩
  · rintro ⟨h0, h1⟩
    have hpi : pyIndex xs.length i = i := pyIndex_nonneg xs.length i h0
    unfold pyListGet
    split
    next hc =>
      refine ⟨_, ?_, rfl⟩
      simp only [hpi]
      exact List.get?_eq_get (by omega)
    next hc =>
      rw [hpi] at hc
      exact absurd ⟨h0, h1⟩ hc
  · rintro ⟨h0, h1⟩
    have hpi : pyIndex xs.length i = i + (xs.length : Int) :=
      pyIndex_neg xs.length i h1
    unfold pyListGet
    split
    next hc =>
      refine ⟨_, ?_, rfl⟩
      simp only [hpi]
      exact List.get?_eq_get (by omega)
    next hc =>
      rw [hpi] at hc
      exact absurd ⟨by omega, by omega⟩ hc
  · intro hout
    unfold pyListGet
    split
    next hc =>
      exfalso
      by_cases hi : i < 0
      · rw [pyIndex_neg xs.length i hi] at hc
        omega
      · rw [pyIndex_nonneg xs.length i (by omega)] at hc
        omega
    next hc => rfl

/-- C1 (corrected, counterexample): on the concrete two-page dataset
`ds2`, `get_page(-1)` does not fail — it returns the last page handle —
refuting the claim that every index outside `[0, n)` fails with
`IndexOutOfRangeError`. -/
theorem C1_get_page_negative_index_succeeds :
    ds2.get_page (-1) = Except.ok doc1 ∧
    ∀ e : PyErr, ds2.get_page (-1) ≠ Except.error e := by
  have hok : ds2.get_page (-1) = Except.ok doc1 := rfl
  refine ⟨hok, ?_⟩
  intro e h
  rw [hok] at h
  exact Except.noConfusion h

/-- C1 (amended): on every dataset of either variant, `get_page(i)`
returns the page at index `i` for `0 ≤ i < n` and fails with
`IndexOutOfRangeError` for `i ≥ n` or `i < -n`; but for `-n ≤ i < 0`
Python list indexing applies and the page at index `n + i` is returned,
so `get_page(-1)` succeeds while `get_page(n)` fails. -/
theorem C1_get_page_python_indexing (dv : DatasetV) (i : Int) :
    ((0 ≤ i ∧ i < (dv.records.length : Int)) →
      ∃ x, dv.records.get? i.toNat = some x ∧ dv.get_page i = Except.ok x) ∧
    ((-(dv.records.length : Int) ≤ i ∧ i < 0) →
      ∃ x, dv.records.get? (i + (dv.records.length : Int)).toNat = some x ∧
        dv.get_page i = Except.ok x) ∧
    ((i < -(dv.records.length : Int) ∨ (dv.records.length : Int) ≤ i) →
      dv.get_page i = Except.error PyErr.indexError) := by
  cases dv with
  | pymu d => exact pyListGet_spec d._records i
  | img d => exact pyListGet_spec d._records i

/-- C1 witness: concrete instance on the two-page dataset `ds2v`:
index `-1` succeeds via the shifted position `1`, index `2` fails. -/
theorem C1_get_page_python_indexing_witness :
    (∃ x, ds2v.records.get? ((-1 : Int) + (ds2v.records.length : Int)).toNat =
        some x ∧ ds2v.get_page (-1) = Except.ok x) ∧
    ds2v.get_page 2 = Except.error PyErr.indexError :=
  ⟨(C1_get_page_python_indexing ds2v (-1)).2.1 (by decide),
   (C1_get_page_python_indexing ds2v 2).2.2 (by decide)⟩

/-- C2 (code bug): `get_compress_pdf_mid_data` evaluates the attribute
`self.pdf_mid_data`, which `PipeResult` never defines (its `__init__`
sets only `_pipe_res` and `_dataset`), so every call raises
`AttributeError` before the external compressor is ever applied; the
documented compress/decompress round trip can never happen. -/
theorem C2_get_compress_pdf_mid_data_attribute_error
    (compress_json : Json → String) (p : PipeResult) :
    p.get_compress_pdf_mid_data compress_json =
      Except.error (PyErr.attributeError "pdf_mid_data") := rfl

/-- C4 (confirmed): a direct dataset supports exactly {OCR, TXT} (the
spec's TEXT_EXTRACTION is the code's TXT) and a converted dataset
supports exactly {OCR}. -/
theorem C4_supported_methods (dp : PymuDocDataset) (di : ImageDataset) :
    dp.supported_methods.toFinset =
      ({SupportedPdfParseMethod.OCR, SupportedPdfParseMethod.TXT} :
        Finset SupportedPdfParseMethod) ∧
    di.supported_methods.toFinset =
      ({SupportedPdfParseMethod.OCR} : Finset SupportedPdfParseMethod) := by
  constructor <;> rfl

/-- C5 (confirmed): `classify` on a direct dataset is exactly the
external heuristic applied to the dataset's canonical bytes, while on a
converted dataset it is the constant OCR — the definition of
`ImageDataset.classify` takes no classifier at all, so no heuristic can
be invoked. -/
theorem C5_classify (cls : Bytes → SupportedPdfParseMethod)
    (dp : PymuDocDataset) (di : ImageDataset) :
    dp.classify cls = cls dp.data_bits ∧
    di.classify = SupportedPdfParseMethod.OCR :=
  ⟨rfl, rfl⟩

/-- When the result lacks `pdf_info`, `draw_layout` fails on every
filesystem state and path: either at directory preparation, or at the
`pdf_info` lookup before the drawing collaborator is reached. -/
theorem draw_layout_error_of_missing_pdf_info (p : PipeResult) (e : PyErr)
    (h : pyDictGet p._pipe_res "pdf_info" = Except.error e)
    (fs : FS) (fp : String) :
    ∃ e2, p.draw_layout fs fp = Except.error e2 := by
  by_cases hex : os_path_exists fs (os_dirname fp) = true
  · exact ⟨e, by simp [PipeResult.draw_layout, hex, h]⟩
  · rw [Bool.not_eq_true] at hex
    by_cases hd : os_dirname fp = ""
    · exact ⟨PyErr.fileNotFoundError,
        by simp [PipeResult.draw_layout, hex, hd, os_makedirs, os_path_exists, h]⟩
    · exact ⟨e, by simp [PipeResult.draw_layout, hex, hd, os_makedirs, h]⟩

/-- Same as `draw_layout_error_of_missing_pdf_info`, for `draw_span`. -/
theorem draw_span_error_of_missing_pdf_info (p : PipeResult) (e : PyErr)
    (h : pyDictGet p._pipe_res "pdf_info" = Except.error e)
    (fs : FS) (fp : String) :
    ∃ e2, p.draw_span fs fp = Except.error e2 := by
  by_cases hex : os_path_exists fs (os_dirname fp) = true
  · exact ⟨e, by simp [PipeResult.draw_span, hex, h]⟩
  · rw [Bool.not_eq_true] at hex
    by_cases hd : os_dirname fp = ""
    · exact ⟨PyErr.fileNotFoundError,
        by simp [PipeResult.draw_span, hex, hd, os_makedirs, os_path_exists, h]⟩
    · exact ⟨e, by simp [PipeResult.draw_span, hex, hd, os_makedirs, h]⟩

/-- Same as `draw_layout_error_of_missing_pdf_info`, for
`draw_line_sort`. -/
theorem draw_line_sort_error_of_missing_pdf_info (p : PipeResult) (e : PyErr)
    (h : pyDictGet p._pipe_res "pdf_info" = Except.error e)
    (fs : FS) (fp : String) :
    ∃ e2, p.draw_line_sort fs fp = Except.error e2 := by
  by_cases hex : os_path_exists fs (os_dirname fp) = true
  · exact ⟨e, by simp [PipeResult.draw_line_sort, hex, h]⟩
  · rw [Bool.not_eq_true] at hex
    by_cases hd : os_dirname fp = ""
    · exact ⟨PyErr.fileNotFoundError,
        by simp [PipeResult.draw_line_sort, hex, hd, os_makedirs, os_path_exists, h]⟩
    · exact ⟨e, by simp [PipeResult.draw_line_sort, hex, hd, os_makedirs, h]⟩

/-- C3 (corrected, counterexample): on a result without `pdf_info`,
`dump_middle_json` does not fail — it happily writes the serialized
result — refuting the claim that every export operation fails with
`MalformedResultError` in that situation. -/
theorem C3_dump_middle_json_succeeds_counterexample :
    pyDictGet pipe0._pipe_res "pdf_info" =
      Except.error (PyErr.keyError "pdf_info") ∧
    pipe0.dump_middle_json w0 "out/middle.json" =
      Except.ok (DataWriter.mk [("out/middle.json", Json.str "\x7b\x7d")]) :=
  ⟨rfl, rfl⟩

/-- C3 (amended): when the analysis result lacks the top-level
`pdf_info` collection, `dump_md`, `dump_content_list`, `draw_layout`,
`draw_span` and `draw_line_sort` all fail before producing an artifact;
`dump_middle_json`, however, never inspects `pdf_info` and succeeds,
writing the result serialized verbatim. -/
theorem C3_missing_pdf_info_exports (p : PipeResult) (e : PyErr)
    (h : pyDictGet p._pipe_res "pdf_info" = Except.error e) :
    (∀ um w fp img dm mm, p.dump_md um w fp img dm mm = Except.error e) ∧
    (∀ um w fp img, p.dump_content_list um w fp img = Except.error e) ∧
    (∀ fs fp, ∃ e2, p.draw_layout fs fp = Except.error e2) ∧
    (∀ fs fp, ∃ e2, p.draw_span fs fp = Except.error e2) ∧
    (∀ fs fp, ∃ e2, p.draw_line_sort fs fp = Except.error e2) ∧
    (∀ w fp, p.dump_middle_json w fp =
      Except.ok (w.write_string fp (Json.str (json_dumps p._pipe_res false 4)))) := by
  refine ⟨?_, ?_, ?_, ?_, ?_, ?_⟩
  · intro um w fp img dm mm
    simp [PipeResult.dump_md, h]
  · intro um w fp img
    simp [PipeResult.dump_content_list, h]
  · exact draw_layout_error_of_missing_pdf_info p e h
  · exact draw_span_error_of_missing_pdf_info p e h
  · exact draw_line_sort_error_of_missing_pdf_info p e h
  · intro w fp
    rfl

/-- C3 witness: the amended statement instantiated on the concrete
`pdf_info`-less materializer `pipe0`. -/
theorem C3_missing_pdf_info_exports_witness :
    (∀ um w fp img dm mm, pipe0.dump_md um w fp img dm mm =
      Except.error (PyErr.keyError "pdf_info")) ∧
    (∀ fs fp, ∃ e2, pipe0.draw_layout fs fp = Except.error e2) ∧
    (∀ w fp, pipe0.dump_middle_json w fp =
      Except.ok (w.write_string fp
        (Json.str (json_dumps pipe0._pipe_res false 4)))) :=
  ⟨(C3_missing_pdf_info_exports pipe0 (PyErr.keyError "pdf_info") rfl).1,
   (C3_missing_pdf_info_exports pipe0 (PyErr.keyError "pdf_info") rfl).2.2.1,
   (C3_missing_pdf_info_exports pipe0 (PyErr.keyError "pdf_info") rfl).2.2.2.2.2⟩

/-- C6 (confirmed): a direct dataset built from bytes `b` reports
`data_bits = b` unchanged; a converted dataset built from image bytes
`b` reports the converted paged-document bytes, so whenever the
conversion changes the bytes the accessor's result differs from `b`,
and the original image bytes live only in the separate `_raw_data`
slot, not in this accessor. -/
theorem C6_raw_bytes (fitz_pages : Bytes → List FitzPage)
    (convert_to_pdf : Bytes → Bytes) (b : Bytes)
    (h : convert_to_pdf b ≠ b) :
    (PymuDocDataset.init fitz_pages b).data_bits = b ∧
    (ImageDataset.init convert_to_pdf fitz_pages b).data_bits =
      convert_to_pdf b ∧
    (ImageDataset.init convert_to_pdf fitz_pages b).data_bits ≠ b ∧
    (ImageDataset.init convert_to_pdf fitz_pages b)._raw_data = b :=
  ⟨rfl, rfl, h, rfl⟩

/-- C6 witness: concrete instance with a conversion that prepends a
byte, so the converted bytes provably differ from the input. -/
theorem C6_raw_bytes_witness :
    (PymuDocDataset.init (fun _ => []) [7]).data_bits = [7] ∧
    (ImageDataset.init (fun bs => 0 :: bs) (fun _ => []) [7]).data_bits =
      0 :: [7] ∧
    (ImageDataset.init (fun bs => 0 :: bs) (fun _ => []) [7]).data_bits ≠ [7] ∧
    (ImageDataset.init (fun bs => 0 :: bs) (fun _ => []) [7])._raw_data = [7] :=
  C6_raw_bytes (fun _ => []) (fun bs => 0 :: bs) [7] (by decide)

/-- C7 (confirmed): `apply` on either variant invokes the procedure
with the dataset prepended as first positional argument, keyword
arguments passed through, and the two implementations realise the same
function of the procedure and arguments. -/
theorem C7_apply {Res : Type} (proc : List PyObj → List (String × Json) → Res)
    (args : List PyObj) (kwargs : List (String × Json))
    (dp : PymuDocDataset) (di : ImageDataset) :
    dp.apply proc args kwargs =
      proc (PyObj.ds (DatasetV.pymu dp) :: args) kwargs ∧
    di.apply proc args kwargs =
      proc (PyObj.ds (DatasetV.img di) :: args) kwargs ∧
    (∀ dv : DatasetV, dv.apply proc args kwargs =
      proc (PyObj.ds dv :: args) kwargs) := by
  refine ⟨rfl, rfl, ?_⟩
  intro dv
  cases dv <;> rfl

/-- C8 (confirmed): with `pdf_info` present, `dump_content_list`
invokes the assembler with the fixed `MakeMode.STANDARD_FORMAT` and
`DropMode.NONE` and writes the assembled structure through
`json.dumps(..., ensure_ascii=False, indent=4)`; the serializer indents
by four spaces per level and emits non-ASCII characters verbatim. -/
theorem C8_dump_content_list
    (um : Json → MakeMode → DropMode → String → Json) (p : PipeResult)
    (w : DataWriter) (fp img_dir : String) (pdf_info : Json)
    (h : pyDictGet p._pipe_res "pdf_info" = Except.ok pdf_info) :
    p.dump_content_list um w fp img_dir =
      Except.ok (w.write_string fp (Json.str
        (json_dumps (um pdf_info MakeMode.STANDARD_FORMAT DropMode.NONE img_dir)
          false 4))) ∧
    json_dumps (Json.obj [("k", Json.int 1)]) false 4 =
      "\x7b\n    \"k\": 1\n\x7d" ∧
    json_dumps (Json.str "中文 é") false 4 = "\"中文 é\"" := by
  refine ⟨?_, rfl, rfl⟩
  simp [PipeResult.dump_content_list, h]

/-- C8 witness: concrete instance on `pipe1`, whose result holds an
empty `pdf_info`, with an identity-like assembler. -/
theorem C8_dump_content_list_witness :
    pipe1.dump_content_list (fun j _ _ _ => j) w0 "content_list.json"
      "images" =
      Except.ok (w0.write_string "content_list.json" (Json.str
        (json_dumps ((fun (j : Json) (_ : MakeMode) (_ : DropMode)
          (_ : String) => j) (Json.arr []) MakeMode.STANDARD_FORMAT
          DropMode.NONE "images") false 4))) :=
  (C8_dump_content_list (fun j _ _ _ => j) pipe1 w0 "content_list.json"
    "images" (Json.arr []) rfl).1

/-- A character list without a slash has no last-slash position. -/
theorem rfindSlash_eq_none (cs : List Char)
    (h : ∀ c ∈ cs, ¬ c = Char.ofNat 47) : rfindSlash cs = none := by
  induction cs with
  | nil => rfl
  | cons a as ih =>
    have ha := h a (List.mem_cons_self a as)
    have has : ∀ c ∈ as, ¬ c = Char.ofNat 47 :=
      fun c hc => h c (List.mem_cons_of_mem a hc)
    simp [rfindSlash, ih has, ha]

/-- `os.path.dirname` of a path without a slash is the empty string. -/
theorem os_dirname_no_slash (p : String)
    (h : ∀ c ∈ p.toList, ¬ c = Char.ofNat 47) : os_dirname p = "" := by
  have hr : rfindSlash p.data = none := rfindSlash_eq_none p.toList h
  simp [os_dirname, hr]

/-- C9 (confirmed): every overlay renderer called with a path that has
no directory component (no slash, e.g. `layout.pdf`) fails with
`FileNotFoundError` at directory preparation — `os.path.dirname` gives
the empty string, `os.path.exists` is false on it regardless of the
filesystem, and `os.makedirs("")` raises — before `pdf_info` is even
read or any drawing collaborator invoked. -/
theorem C9_draw_no_directory_component_fails (p : PipeResult) (fs : FS)
    (path : String) (h : ∀ c ∈ path.toList, ¬ c = Char.ofNat 47) :
    p.draw_layout fs path = Except.error PyErr.fileNotFoundError ∧
    p.draw_span fs path = Except.error PyErr.fileNotFoundError ∧
    p.draw_line_sort fs path = Except.error PyErr.fileNotFoundError := by
  have hd : os_dirname path = "" := os_dirname_no_slash path h
  refine ⟨?_, ?_, ?_⟩
  · simp [PipeResult.draw_layout, hd, os_path_exists, os_makedirs]
  · simp [PipeResult.draw_span, hd, os_path_exists, os_makedirs]
  · simp [PipeResult.draw_line_sort, hd, os_path_exists, os_makedirs]

/-- C9 witness: concrete instance with a well-formed result, an
existing directory in the filesystem, and the bare path `layout.pdf`. -/
theorem C9_draw_no_directory_component_fails_witness :
    pipe1.draw_layout ["out"] "layout.pdf" =
      Except.error PyErr.fileNotFoundError ∧
    pipe1.draw_span ["out"] "layout.pdf" =
      Except.error PyErr.fileNotFoundError ∧
    pipe1.draw_line_sort ["out"] "layout.pdf" =
      Except.error PyErr.fileNotFoundError :=
  C9_draw_no_directory_component_fails pipe1 ["out"] "layout.pdf" (by decide)

/-- C10 (confirmed): attribute lookup on a page handle for a name the
handle itself does not define goes through `Doc.__getattr__`: when the
underlying page has the attribute, its value is returned; when it does
not, the lookup silently yields `None` and never raises
`AttributeError`. -/
theorem C10_doc_getattr_fallback (d : Doc) (name : String)
    (hname : Doc.own_attr_names.contains name = false) :
    (∀ v, d._doc.attrs.lookup name = some v →
      d.py_getattr name = Except.ok (DocAttr.val v)) ∧
    (d._doc.attrs.lookup name = none →
      d.py_getattr name = Except.ok (DocAttr.val Json.null)) ∧
    (∀ e, d.py_getattr name ≠ Except.error e) := by
  refine ⟨?_, ?_, ?_⟩
  · intro v hv
    unfold Doc.py_getattr
    rw [hname]
    simp only [Bool.false_eq_true, if_false]
    rw [hv]
  · intro hv
    unfold Doc.py_getattr
    rw [hname]
    simp only [Bool.false_eq_true, if_false]
    rw [hv]
  · intro e hcontra
    unfold Doc.py_getattr at hcontra
    rw [hname] at hcontra
    simp only [Bool.false_eq_true, if_false] at hcontra
    cases hl : d._doc.attrs.lookup name with
    | some v =>
      rw [hl] at hcontra
      exact Except.noConfusion hcontra
    | none =>
      rw [hl] at hcontra
      exact Except.noConfusion hcontra

/-- C10 witness: on `doc0` the forwarded `rotation` attribute of the
underlying page is returned; on `doc1`, whose underlying page lacks it,
the lookup yields `None` rather than an error. -/
theorem C10_doc_getattr_fallback_witness :
    doc0.py_getattr "rotation" = Except.ok (DocAttr.val (Json.int 0)) ∧
    doc1.py_getattr "rotation" = Except.ok (DocAttr.val Json.null) :=
  ⟨(C10_doc_getattr_fallback doc0 "rotation" (by decide)).1 (Json.int 0) rfl,
   (C10_doc_getattr_fallback doc1 "rotation" (by decide)).2.1 rfl⟩
